import Mathlib

/-!
Verification of the nmap-scanner backend: a shallow embedding of the
scan-execution / result-normalization pipeline (app/services/scanner.py),
the scans and reports API endpoints (app/api/scans.py, app/api/reports.py)
and the database models (app/models/scan.py), together with theorems
settling the specification claims about them.

Python strings are modelled as Lean `String`; the Python string operations
used by the code (`in`, `split`, `split(sep, 1)`, `strip`, `startswith`)
are implemented structurally over `List Char` so that every definition
evaluates by `decide` / `rfl`.
-/

namespace NmapApp

/-! ## Python string primitives -/

/-- Python whitespace characters (used by `str.split()` / `str.strip()`). -/
def isPyWs (c : Char) : Bool :=
  c = ' ' || c = '\t' || c = '\n' || c = '\r' || c = '\x0b' || c = '\x0c'

def listIsPrefixOf : List Char → List Char → Bool
  | [], _ => true
  | _ :: _, [] => false
  | a :: as, b :: bs => a = b && listIsPrefixOf as bs

def containsSub (pat : List Char) : List Char → Bool
  | [] => listIsPrefixOf pat []
  | c :: rest => listIsPrefixOf pat (c :: rest) || containsSub pat rest

/-- Python `pat in s` (substring containment). -/
def pyContains (s pat : String) : Bool := containsSub pat.data s.data

/-- Python `s.startswith(pre)`. -/
def pyStartsWith (s pre : String) : Bool := listIsPrefixOf pre.data s.data

/-- Split on a single separator character, keeping empty pieces
(Python `s.split('\n')`). -/
def splitOnChar (sep : Char) : List Char → List (List Char)
  | [] => [[]]
  | c :: rest =>
    let r := splitOnChar sep rest
    if c = sep then [] :: r
    else
      match r with
      | h :: t => (c :: h) :: t
      | [] => [[c]]

/-- Python `s.split('\n')` as a list of lines. -/
def pyLines (s : String) : List String :=
  (splitOnChar '\n' s.data).map String.mk

/-- Break a character list at the first occurrence of `sep`. -/
def breakAtChar (sep : Char) : List Char → Option (List Char × List Char)
  | [] => none
  | c :: rest =>
    if c = sep then some ([], rest)
    else (breakAtChar sep rest).map (fun p => (c :: p.1, p.2))

/-- Python `s.split(':', 1)`. -/
def pySplitColon1 (s : String) : List String :=
  match breakAtChar ':' s.data with
  | none => [s]
  | some (a, b) => [String.mk a, String.mk b]

def splitWsAux : List Char → List Char → List (List Char)
  | cur, [] => if cur = [] then [] else [cur.reverse]
  | cur, c :: rest =>
    if isPyWs c then
      if cur = [] then splitWsAux [] rest else cur.reverse :: splitWsAux [] rest
    else splitWsAux (c :: cur) rest

/-- Python `s.split()` (split on whitespace runs, dropping empties). -/
def pySplit (s : String) : List String :=
  (splitWsAux [] s.data).map String.mk

/-- Python `s.strip()`. -/
def pyStrip (s : String) : String :=
  String.mk (((s.data.dropWhile isPyWs).reverse.dropWhile isPyWs).reverse)

/-- Python truthiness of an optional string (`None` and `''` are falsy). -/
def pyTruthy : Option String → Bool
  | none => false
  | some s => s ≠ ""

/-- Python `x or d` for an optional string. -/
def pyOr (o : Option String) (d : String) : String :=
  match o with
  | some s => if s ≠ "" then s else d
  | none => d

/-- Python f-string rendering of an optional string (`None` prints as "None"). -/
def fstrOpt : Option String → String
  | some s => s
  | none => "None"

/-! ## Scanner input model (python-nmap host objects)

A `HostEntry` models what `_process_scan_results` reads from `nm[host]`:
the reported hostname, state, the `hostnames` / `addresses` / `vendor` /
`hostscript` / `osmatch` keys (each `Option` models key presence) and the
per-protocol port dictionaries. -/

structure HostnameEntry where
  name : String
deriving Repr, DecidableEq

structure ScriptEntry where
  id : String
  output : String
deriving Repr, DecidableEq

structure Addresses where
  mac : Option String
deriving Repr, DecidableEq

structure OsMatch where
  name : Option String
  accuracy : Option String
  line : Option String
deriving Repr, DecidableEq

structure PortInfo where
  state : Option String
  name : Option String
  version : Option String
  product : Option String
  extrainfo : Option String
deriving Repr, DecidableEq

structure HostEntry where
  host : String
  hostname : String
  state : String
  hostnames : Option (List HostnameEntry)
  addresses : Option Addresses
  vendor : Option (List (String × String))
  protocols : List (String × List (Nat × PortInfo))
  hostscript : Option (List ScriptEntry)
  osmatch : Option (List OsMatch)
  raw : Option String
deriving Repr, DecidableEq

/-! ## Normalized records -/

structure PortData where
  port : Nat
  protocol : String
  state : String
  service : String
  version : String
  product : String
  extrainfo : String
deriving Repr, DecidableEq

structure OsMatchData where
  name : String
  accuracy : String
  line : String
deriving Repr, DecidableEq

/-- Models `host_data["os_detection"]`: an empty dict (modelled `none`) or a matches list. -/
abbrev OsDetection := Option (List OsMatchData)

structure HostData where
  host : String
  hostname : Option String
  state : String
  ports : List PortData
  os_detection : OsDetection
  services : List String
  mac_address : Option String
  mac_vendor : Option String
deriving Repr, DecidableEq

/-! ## Result normalizer (`_process_scan_results`, per-host part)

Each definition below translates a block of
`src/backend/app/services/scanner.py`. -/

/-- Hostname phase 2: `for hn in nm[host]['hostnames']: if hn.get('name'): ... break`. -/
def hostnamesLookup : List HostnameEntry → Option String
  | [] => none
  | hn :: rest => if hn.name ≠ "" then some hn.name else hostnamesLookup rest

/-- Hostname phases 1-2 (scanner.py lines 99-107). -/
def initialHostname (e : HostEntry) : Option String :=
  if e.hostname ≠ "" then some e.hostname
  else
    match e.hostnames with
    | some l => if l ≠ [] then hostnamesLookup l else none
    | none => none

/-- nbstat line loop (scanner.py lines 156-164): first line containing `<00>`
and `Workstation` or `UNIQUE` whose first token is non-empty and does not
start with `<`; bad matching lines are skipped. -/
def nbstatFromLines : List String → Option String
  | [] => none
  | line :: rest =>
    if pyContains line "<00>" && (pyContains line "Workstation" || pyContains line "UNIQUE") then
      match pySplit line with
      | p :: _ =>
        if p ≠ "" && !(pyStartsWith p "<") then some (pyStrip p) else nbstatFromLines rest
      | [] => nbstatFromLines rest
    else nbstatFromLines rest

/-- smb-os-discovery line loop (scanner.py lines 168-180): at the first line
containing `Computer name:` (or, failing that, `NetBIOS computer name:`)
take the stripped text after the first `:` of the line. -/
def smbFromLines : List String → Option String
  | [] => none
  | line :: rest =>
    if pyContains line "Computer name:" then
      match pySplitColon1 line with
      | _ :: t :: _ => some (pyStrip t)
      | _ => smbFromLines rest
    else if pyContains line "NetBIOS computer name:" then
      match pySplitColon1 line with
      | _ :: t :: _ => some (pyStrip t)
      | _ => smbFromLines rest
    else smbFromLines rest

/-- One iteration of the hostscript loop body (scanner.py lines 150-180):
the nbstat attempt, then, if the hostname is still falsy, the smb attempt.
The state is the current `hostname` variable (`none` = Python `None`;
`some ""` can arise from the smb branch and is falsy). -/
def scriptStep (h : Option String) (s : ScriptEntry) : Option String :=
  let h1 :=
    if pyContains s.id "nbstat" && s.output ≠ "" then
      match nbstatFromLines (pyLines s.output) with
      | some n => some n
      | none => h
    else h
  if !pyTruthy h1 && pyContains s.id "smb-os-discovery" && s.output ≠ "" then
    match smbFromLines (pyLines s.output) with
    | some n => some n
    | none => h1
  else h1

/-- The hostscript loop (scanner.py lines 150-183): run `scriptStep` on each
script in order, breaking as soon as the hostname is truthy. -/
def scriptPhase : Option String → List ScriptEntry → Option String
  | h, [] => h
  | h, s :: rest =>
    let h2 := scriptStep h s
    if pyTruthy h2 then h2 else scriptPhase h2 rest

/-- Full hostname computation: phases 1-2, then, when the result is falsy and
`hostscript` is present, the script phase (scanner.py lines 99-107, 149-183). -/
def computeHostname (e : HostEntry) : Option String :=
  let h0 := initialHostname e
  if !pyTruthy h0 then
    match e.hostscript with
    | some scripts => scriptPhase h0 scripts
    | none => h0
  else h0

/-- MAC address / vendor extraction (scanner.py lines 110-118). -/
def macInfo (e : HostEntry) : Option String × Option String :=
  match e.addresses with
  | none => (none, none)
  | some a =>
    let vend :=
      match e.vendor with
      | some v => if v ≠ [] then (v.map Prod.snd).head? else none
      | none => none
    (a.mac, vend)

/-- The `port_data` dictionary (scanner.py lines 136-144). -/
def mkPortData (proto : String) (port : Nat) (pi : PortInfo) : PortData :=
  { port := port
    protocol := proto
    state := pi.state.getD "unknown"
    service := pi.name.getD "unknown"
    version := pi.version.getD ""
    product := pi.product.getD ""
    extrainfo := pi.extrainfo.getD "" }

/-- The services entry `f"{port}/{proto} - {port_info.get('name', 'unknown')}"` (scanner.py line 146). -/
def serviceEntry (proto : String) (port : Nat) (pi : PortInfo) : String :=
  toString port ++ "/" ++ proto ++ " - " ++ pi.name.getD "unknown"

/-- Port loop (scanner.py lines 132-146): append one `port_data` and one
services string per port of each protocol. -/
def process_ports (protocols : List (String × List (Nat × PortInfo))) :
    List PortData × List String :=
  protocols.foldl
    (fun acc pr =>
      pr.2.foldl
        (fun a p => (a.1 ++ [mkPortData pr.1 p.1 p.2], a.2 ++ [serviceEntry pr.1 p.1 p.2]))
        acc)
    ([], [])

/-- OS detection block (scanner.py lines 186-196). -/
def osDetectionOf (e : HostEntry) : OsDetection :=
  e.osmatch.map (List.map fun o =>
    { name := o.name.getD "", accuracy := o.accuracy.getD "", line := o.line.getD "" })

/-- Per-host normalization: the `host_data` record built by
`_process_scan_results` for one host (scanner.py lines 97-196). -/
def process_host (e : HostEntry) : HostData :=
  let pp := process_ports e.protocols
  let mi := macInfo e
  { host := e.host
    hostname := computeHostname e
    state := e.state
    ports := pp.1
    os_detection := osDetectionOf e
    services := pp.2
    mac_address := mi.1
    mac_vendor := mi.2 }

/-! ## Database model (app/models/scan.py) and session

`ScanResultRow` mirrors the `scan_results` table columns (note: no
`mac_address` / `mac_vendor` columns). `DbState` models the SQLAlchemy
session used by one scan execution: `db.add` stages a pending row,
`db.commit` makes every pending row durable. -/

structure ScanResultRow where
  scan_id : String
  host : String
  hostname : Option String
  state : Option String
  ports : Option (List PortData)
  os_detection : Option OsDetection
  services : Option (List String)
  vulnerabilities : Option (List String)
  raw_output : Option String
deriving Repr, DecidableEq

structure LogRec where
  scan_id : String
  level : String
  message : String
deriving Repr, DecidableEq

structure ScanRec where
  status : String
  progress : Nat
  error_message : Option String
  started_at : Option Nat
  completed_at : Option Nat
deriving Repr, DecidableEq

structure DbState where
  scan : ScanRec
  logs : List LogRec
  committedResults : List ScanResultRow
  pendingResults : List ScanResultRow
  pendingLogs : List LogRec
deriving Repr, DecidableEq

/-- Models `db.add(scan_result)`. -/
def dbAddResult (db : DbState) (r : ScanResultRow) : DbState :=
  { db with pendingResults := db.pendingResults ++ [r] }

/-- Models `db.add(log)`. -/
def dbAddLog (db : DbState) (l : LogRec) : DbState :=
  { db with pendingLogs := db.pendingLogs ++ [l] }

/-- Models `await db.commit()`: flush every pending row. -/
def dbCommit (db : DbState) : DbState :=
  { db with
    committedResults := db.committedResults ++ db.pendingResults
    logs := db.logs ++ db.pendingLogs
    pendingResults := []
    pendingLogs := [] }

/-- The `update_data` construction of `_update_scan_status`
(scanner.py lines 227-236): `status` always, the rest only when provided. -/
def applyUpdate (s : ScanRec) (status : String) (progress : Option Nat)
    (error_message : Option String) (started_at completed_at : Option Nat) : ScanRec :=
  { s with
    status := status
    progress := progress.getD s.progress
    error_message := match error_message with | some e => some e | none => s.error_message
    started_at := match started_at with | some t => some t | none => s.started_at
    completed_at := match completed_at with | some t => some t | none => s.completed_at }

/-- Models `_update_scan_status` (scanner.py lines 216-244): apply the update
statement, then commit. -/
def update_scan_status (db : DbState) (status : String) (progress : Option Nat)
    (error_message : Option String) (started_at completed_at : Option Nat) : DbState :=
  dbCommit { db with scan := applyUpdate db.scan status progress error_message started_at completed_at }

/-- Models `_add_log` (scanner.py lines 246-260): add one `ScanLog` row, then commit. -/
def add_log (db : DbState) (scanId level message : String) : DbState :=
  dbCommit (dbAddLog db { scan_id := scanId, level := level, message := message })

/-- The `ScanResult(...)` row built from `host_data` (scanner.py lines 199-208). -/
def mkRowFromData (scanId : String) (hd : HostData) (raw : String) : ScanResultRow :=
  { scan_id := scanId
    host := hd.host
    hostname := hd.hostname
    state := some hd.state
    ports := some hd.ports
    os_detection := some hd.os_detection
    services := some hd.services
    vulnerabilities := none
    raw_output := some raw }

/-- Row persisted for one scanner host (`raw_output=nm[host].get('raw', '')`). -/
def mkRow (scanId : String) (e : HostEntry) : ScanResultRow :=
  mkRowFromData scanId (process_host e) (e.raw.getD "")

/-! ## Active-scan map (a Python dict `str → bool`) -/

abbrev ActiveMap := List (String × Bool)

/-- Dict assignment `active_scans[k] = v`. -/
def setActive : ActiveMap → String → Bool → ActiveMap
  | [], k, v => [(k, v)]
  | (k0, v0) :: rest, k, v =>
    if k0 = k then (k0, v) :: rest else (k0, v0) :: setActive rest k v

/-- Dict lookup `k in active_scans` / `active_scans.get(k)`. -/
def lookupActive : ActiveMap → String → Option Bool
  | [], _ => none
  | (k0, v0) :: rest, k => if k0 = k then some v0 else lookupActive rest k

/-- Dict removal `active_scans.pop(k, None)`. -/
def popActive (m : ActiveMap) (k : String) : ActiveMap :=
  m.filter (fun p => ¬ p.1 = k)

/-- Models `cancel_scan` (scanner.py lines 262-267): if the scan id is an active
key, set its flag to `False` and return `True`, else return `False`. -/
def cancel_scan (m : ActiveMap) (scanId : String) : ActiveMap × Bool :=
  if (lookupActive m scanId).isSome then (setActive m scanId false, true) else (m, false)

/-! ## Scan orchestrator (`execute_scan`)

Every `await`ed operation inside the `try` block can raise.  An execution
environment fixes the scanner output, at most one point that raises (with
the Python `str(e)` message), and the values `datetime.utcnow()` returns
at start and at completion. -/

inductive FailPoint where
  | updRunning
  | logStart
  | nmScan
  | procHost (i : Nat)
  | updCompleted
  | logSuccess
deriving Repr, DecidableEq

structure Env where
  target : String
  hosts : List HostEntry
  failAt : Option (FailPoint × String)
  t1 : Nat
  t2 : Nat

def failMsg (env : Env) (fp : FailPoint) : Option String :=
  match env.failAt with
  | some (fp2, m) => if fp2 = fp then some m else none
  | none => none

def procFail (env : Env) : Option (Nat × String) :=
  match env.failAt with
  | some (FailPoint.procHost i, m) => some (i, m)
  | _ => none

/-- The host loop of `_process_scan_results` (scanner.py lines 97-214):
for each host, build `host_data`, `db.add` its row, collect it; raise at
host index `failAt.1` when that is reached; after the loop one commit. -/
def process_scan_results (scanId : String) (db : DbState) (hosts : List HostEntry)
    (failAt : Option (Nat × String)) (acc : List HostData) :
    DbState × Except String (List HostData) :=
  match hosts with
  | [] => (dbCommit db, Except.ok acc)
  | h :: rest =>
    match failAt with
    | some (0, m) => (db, Except.error m)
    | some (Nat.succ i, m) =>
      process_scan_results scanId (dbAddResult db (mkRow scanId h)) rest
        (some (i, m)) (acc ++ [process_host h])
    | none =>
      process_scan_results scanId (dbAddResult db (mkRow scanId h)) rest
        none (acc ++ [process_host h])

/-- Observable events of one execution, in order. -/
inductive Ev where
  | statusUpd (status : String)
  | logAdd (level : String)
  | invoke
  | resultsCommit
deriving Repr, DecidableEq

/-- The `try` block of `execute_scan` (scanner.py lines 43-73): the status
update to running, the start log, the nmap invocation, result processing,
the status update to completed, and the success log, stopping at the first
raising step.  Returns the session state, the event trace, and either the
processed results or the escaped exception message. -/
def tryBody (env : Env) (scanId : String) (db0 : DbState) :
    DbState × List Ev × Except String (List HostData) :=
  match failMsg env FailPoint.updRunning with
  | some m => (db0, [], Except.error m)
  | none =>
    let db1 := update_scan_status db0 "running" none none (some env.t1) none
    match failMsg env FailPoint.logStart with
    | some m => (db1, [Ev.statusUpd "running"], Except.error m)
    | none =>
      let db2 := add_log db1 scanId "info" ("Starting scan on target: " ++ env.target)
      match failMsg env FailPoint.nmScan with
      | some m => (db2, [Ev.statusUpd "running", Ev.logAdd "info"], Except.error m)
      | none =>
        match process_scan_results scanId db2 env.hosts (procFail env) [] with
        | (db3, Except.error m) =>
          (db3, [Ev.statusUpd "running", Ev.logAdd "info", Ev.invoke], Except.error m)
        | (db3, Except.ok results) =>
          match failMsg env FailPoint.updCompleted with
          | some m =>
            (db3, [Ev.statusUpd "running", Ev.logAdd "info", Ev.invoke, Ev.resultsCommit],
              Except.error m)
          | none =>
            let db4 := update_scan_status db3 "completed" (some 100) none none (some env.t2)
            match failMsg env FailPoint.logSuccess with
            | some m =>
              (db4, [Ev.statusUpd "running", Ev.logAdd "info", Ev.invoke, Ev.resultsCommit,
                Ev.statusUpd "completed"], Except.error m)
            | none =>
              let db5 := add_log db4 scanId "success" "Scan completed successfully"
              (db5, [Ev.statusUpd "running", Ev.logAdd "info", Ev.invoke, Ev.resultsCommit,
                Ev.statusUpd "completed", Ev.logAdd "success"], Except.ok results)

/-- The dictionary returned by a successful `execute_scan` (scanner.py lines 69-73). -/
structure ExecRet where
  status : String
  hosts_scanned : Nat
  results : List HostData
deriving Repr, DecidableEq

instance instDecEqExcept {ε α : Type} [DecidableEq ε] [DecidableEq α] :
    DecidableEq (Except ε α)
  | Except.error a, Except.error b =>
    if h : a = b then isTrue (by rw [h]) else isFalse (by simp [h])
  | Except.error _, Except.ok _ => isFalse (by simp)
  | Except.ok _, Except.error _ => isFalse (by simp)
  | Except.ok a, Except.ok b =>
    if h : a = b then isTrue (by rw [h]) else isFalse (by simp [h])

structure ExecResult where
  db : DbState
  active : ActiveMap
  outcome : Except String ExecRet
  trace : List Ev
deriving Repr, DecidableEq

/-- Models `execute_scan` (scanner.py lines 22-86): set the active flag, run the
`try` body; on an exception set status failed, log the error and re-raise;
in all cases pop the scan id from the active map.  `interfere` models a
concurrent `cancel_scan` call made while the scan runs (`id` when none). -/
def execute_scan (env : Env) (scanId : String) (db0 : DbState) (active0 : ActiveMap)
    (interfere : ActiveMap → ActiveMap) : ExecResult :=
  let active1 := interfere (setActive active0 scanId true)
  match tryBody env scanId db0 with
  | (db, tr, Except.ok results) =>
    { db := db
      active := popActive active1 scanId
      outcome := Except.ok { status := "completed", hosts_scanned := results.length, results := results }
      trace := tr }
  | (db, tr, Except.error m) =>
    let emsg := "Scan failed: " ++ m
    let db2 := add_log (update_scan_status db "failed" none (some emsg) none (some env.t2))
      scanId "error" emsg
    { db := db2
      active := popActive active1 scanId
      outcome := Except.error m
      trace := tr ++ [Ev.statusUpd "failed", Ev.logAdd "error"] }

/-- Holds (`= true`) iff every occurrence of `b` in `t` is
preceded by an occurrence of `a` (scanning: reaching `a` first settles it). -/
def occursBefore (a b : Ev) : List Ev → Bool
  | [] => true
  | x :: t => if x = a then true else if x = b then false else occursBefore a b t

/-! ## Report endpoints (app/api/reports.py) -/

structure ReportSummary where
  total_hosts : Nat
  hosts_up : Nat
  hosts_down : Nat
  total_open_ports : Nat
deriving Repr, DecidableEq

/-- The `summary` object of the JSON report (reports.py lines 56-61):
`sum(1 for r in results if r.state == "up")` etc., and
`sum(len(r.ports) for r in results if r.ports)`. -/
def jsonReportSummary (results : List ScanResultRow) : ReportSummary :=
  { total_hosts := results.length
    hosts_up := ((results.map fun r => if r.state = some "up" then 1 else 0).foldl (· + ·) 0)
    hosts_down := ((results.map fun r => if r.state = some "down" then 1 else 0).foldl (· + ·) 0)
    total_open_ports :=
      (((results.filter fun r =>
          match r.ports with
          | some l => l ≠ []
          | none => false).map
        fun r => (r.ports.getD []).length).foldl (· + ·) 0) }

/-- One CSV port line (reports.py lines 245-249). -/
def csvPortLine (r : ScanResultRow) (p : PortData) : String :=
  r.host ++ "," ++ pyOr r.hostname "N/A" ++ "," ++ fstrOpt r.state ++ "," ++
    toString p.port ++ "," ++ p.protocol ++ "," ++ p.service ++ "," ++
    p.version ++ "," ++ p.product

/-- The CSV line for a host with a falsy ports value (reports.py line 251). -/
def csvEmptyLine (r : ScanResultRow) : String :=
  r.host ++ "," ++ pyOr r.hostname "N/A" ++ "," ++ fstrOpt r.state ++ ",,,,,"

/-- The CSV lines appended for one result row (reports.py lines 242-251). -/
def csvHostLines (r : ScanResultRow) : List String :=
  match r.ports with
  | some ps =>
    if ps ≠ [] then ps.foldl (fun a p => a ++ [csvPortLine r p]) [] else [csvEmptyLine r]
  | none => [csvEmptyLine r]

def csvHeader : String := "Host,Hostname,State,Port,Protocol,Service,Version,Product"

/-- Models `get_csv_report` (reports.py lines 215-259): 404 when no result rows are
stored, else the header line followed by the per-host lines. -/
def get_csv_report (results : List ScanResultRow) : Except Nat (List String) :=
  if results = [] then Except.error 404
  else Except.ok (results.foldl (fun acc r => acc ++ csvHostLines r) [csvHeader])

/-! ## Scan creation (app/api/scans.py) and templates -/

structure TemplateInfo where
  name : String
  arguments : String
  description : String
deriving Repr, DecidableEq

/-- The built-in template dictionary of `get_scan_templates` (scanner.py lines 269-351). -/
def get_scan_templates : List (String × TemplateInfo) :=
  [ ("quick",
      ⟨"Quick Scan", "-F -T4",
        "Fast scan of the most common 100 ports"⟩),
    ("full",
      ⟨"Full Port Scan", "-p- -T4",
        "Comprehensive scan of all 65535 ports"⟩),
    ("udp",
      ⟨"UDP Scan", "-sU --top-ports 100 -T4",
        "Scan common UDP ports"⟩),
    ("discovery",
      ⟨"Host Discovery", "-sn -PE -PP -PM --dns-servers 8.8.8.8,1.1.1.1 -T4",
        "Discover active hosts in network (ping sweep)"⟩),
    ("local_network",
      ⟨"Local Network Scan", "-sn -PR --dns-servers 8.8.8.8,1.1.1.1 -T4",
        "Complete local network scan with MAC vendor identification"⟩),
    ("web_server",
      ⟨"Web Server Scan",
        "-p 80,443,8080,8443,3000,5000,8000 -sV --script http-title,http-methods,http-headers -T4",
        "Scan web servers (HTTP/HTTPS) with service detection"⟩),
    ("db_server",
      ⟨"Database Server Scan", "-p 3306,5432,1433,1521,27017,6379,5984,9200,11211 -sV -T4",
        "Scan common database ports with version detection"⟩),
    ("mail_server",
      ⟨"Mail Server Scan",
        "-p 25,110,143,465,587,993,995 -sV --script smtp-commands,pop3-capabilities,imap-capabilities -T4",
        "Scan mail servers (SMTP, POP3, IMAP)"⟩),
    ("ftp_ssh_server",
      ⟨"FTP/SSH Server Scan", "-p 20,21,22,23,990,2121,2222 -sV --script ftp-anon,ssh-auth-methods -T4",
        "Scan file transfer and remote access services"⟩),
    ("dns_server",
      ⟨"DNS Server Scan", "-p 53 -sU -sV --script dns-nsid,dns-recursion -T4",
        "Scan DNS servers and detect configuration"⟩),
    ("service",
      ⟨"Service Version Detection", "-sV -O -T4",
        "Detect service versions and OS"⟩),
    ("vulnerability",
      ⟨"Vulnerability Scan", "-sV --script vuln -T4",
        "Scan with NSE vulnerability scripts"⟩),
    ("security_audit",
      ⟨"Security Audit", "-p- -sV --script ssl-cert,ssl-enum-ciphers,ssh-auth-methods -T4",
        "Complete security audit with SSL/TLS checks"⟩),
    ("stealth",
      ⟨"Stealth Scan", "-sS -T2 -f",
        "SYN stealth scan with minimal footprint"⟩),
    ("aggressive",
      ⟨"Aggressive Scan", "-A -T4",
        "Aggressive scan with OS detection, version, scripts and traceroute"⟩) ]

def lookupTemplate (k : String) : Option TemplateInfo :=
  (get_scan_templates.find? fun p => p.1 = k).map Prod.snd

/-- The `ScanCreate` request schema (scans.py lines 26-32). -/
structure ScanCreate where
  name : String
  target : String
  scan_type : String
  nmap_arguments : Option String
deriving Repr, DecidableEq

/-- The scan row created by `create_scan` (scans.py lines 112-118). -/
structure CreatedScan where
  name : String
  target : String
  scan_type : String
  status : String
deriving Repr, DecidableEq

/-- Models `create_scan` argument resolution (scans.py lines 101-118): a truthy
custom `nmap_arguments` wins unvalidated; else the built-in template for
`scan_type`; else HTTP 400.  Returns the stored scan row and the nmap
arguments handed to the background task. -/
def create_scan (req : ScanCreate) : Except (Nat × String) (CreatedScan × String) :=
  if pyTruthy req.nmap_arguments then
    Except.ok (⟨req.name, req.target, req.scan_type, "pending"⟩, req.nmap_arguments.getD "")
  else
    match lookupTemplate req.scan_type with
    | some t =>
      Except.ok (⟨req.name, req.target, req.scan_type, "pending"⟩, t.arguments)
    | none => Except.error (400, "Unknown scan type: " ++ req.scan_type)

/-! ## Scan deletion (app/api/scans.py `delete_scan`)

`db.delete(scan)` with the `cascade="all, delete-orphan"` relationships of
`Scan` (models/scan.py lines 29-30) removes the scan together with its
`ScanResult` and `ScanLog` rows. -/

structure AppDb where
  scans : List (String × ScanRec)
  results : List ScanResultRow
  logRows : List LogRec
deriving Repr, DecidableEq

def delete_scan (sid : String) (db : AppDb) : AppDb × Except Nat String :=
  if (db.scans.find? fun p => p.1 = sid).isSome then
    ({ scans := db.scans.filter fun p => ¬ p.1 = sid
       results := db.results.filter fun r => ¬ r.scan_id = sid
       logRows := db.logRows.filter fun l => ¬ l.scan_id = sid },
      Except.ok "Scan deleted successfully")
  else (db, Except.error 404)

/-! ## Claim C1: spec-side hostname definitions

`specHostnameC1` formalizes claim C1 as written: the nbstat extraction is
tried across all host scripts first, and only if it yields nothing is the
smb-os-discovery extraction tried (taking the text after the matched
phrase); `amendedHostname` formalizes the amended claim: scripts are
scanned in order, each trying nbstat then smb, where the smb extraction
takes the stripped text after the first `:` of the matching line. -/

/-- A single nbstat candidate line, per the claim: contains `<00>` and
`Workstation` or `UNIQUE`, and its first token does not start with `<`. -/
def nbstatLine (line : String) : Option String :=
  if pyContains line "<00>" && (pyContains line "Workstation" || pyContains line "UNIQUE") then
    match pySplit line with
    | p :: _ => if p ≠ "" && !(pyStartsWith p "<") then some (pyStrip p) else none
    | [] => none
  else none

/-- Drop everything up to and including the first occurrence of `pat`;
`none` when `pat` does not occur. -/
def breakSub (pat : List Char) : List Char → Option (List Char)
  | [] => if pat = [] then some [] else none
  | c :: rest =>
    if listIsPrefixOf pat (c :: rest) then some ((c :: rest).drop pat.length)
    else breakSub pat rest

/-- Claim C1 as written: the text after the phrase `Computer name:`
(or `NetBIOS computer name:`), stripped. -/
def textAfterPhrase (line phrase : String) : Option String :=
  match breakSub phrase.data line.data with
  | some rest => some (pyStrip (String.mk rest))
  | none => none

/-- An smb-os-discovery candidate line, per the claim as written. -/
def smbSpecLine (line : String) : Option String :=
  if pyContains line "Computer name:" then textAfterPhrase line "Computer name:"
  else if pyContains line "NetBIOS computer name:" then
    textAfterPhrase line "NetBIOS computer name:"
  else none

def nbstatAll (scripts : List ScriptEntry) : Option String :=
  scripts.findSome? fun s =>
    if pyContains s.id "nbstat" && s.output ≠ "" then
      (pyLines s.output).findSome? nbstatLine
    else none

def smbSpecAll (scripts : List ScriptEntry) : Option String :=
  scripts.findSome? fun s =>
    if pyContains s.id "smb-os-discovery" && s.output ≠ "" then
      (pyLines s.output).findSome? smbSpecLine
    else none

/-- Claim C1 as written, script stages: the whole nbstat stage first,
then the whole smb stage. -/
def scriptStagesSpec (e : HostEntry) : Option String :=
  match nbstatAll (e.hostscript.getD []) with
  | some n => some n
  | none => smbSpecAll (e.hostscript.getD [])

/-- Claim C1 as written: hostname by strict fallback, the whole nbstat stage
before the whole smb stage. -/
def specHostnameC1 (e : HostEntry) : Option String :=
  if e.hostname ≠ "" then some e.hostname
  else
    match e.hostnames with
    | some l =>
      match hostnamesLookup l with
      | some n => some n
      | none => scriptStagesSpec e
    | none => scriptStagesSpec e

/-- An smb-os-discovery candidate line, per the amended claim: the stripped
text after the first `:` of the matching line. -/
def smbLineA (line : String) : Option String :=
  if pyContains line "Computer name:" then
    match pySplitColon1 line with
    | _ :: t :: _ => some (pyStrip t)
    | _ => none
  else if pyContains line "NetBIOS computer name:" then
    match pySplitColon1 line with
    | _ :: t :: _ => some (pyStrip t)
    | _ => none
  else none

def nbstatExtract (output : String) : Option String :=
  (pyLines output).findSome? nbstatLine

def smbExtract (output : String) : Option String :=
  (pyLines output).findSome? smbLineA

/-- Amended claim, one script: nbstat first, then, when the current name is
still unset or empty, smb; an extractor that yields nothing leaves the
current name unchanged. -/
def scriptStepA (h : Option String) (s : ScriptEntry) : Option String :=
  let h1 :=
    if pyContains s.id "nbstat" && s.output ≠ "" then
      match nbstatExtract s.output with
      | some n => some n
      | none => h
    else h
  if !pyTruthy h1 && pyContains s.id "smb-os-discovery" && s.output ≠ "" then
    match smbExtract s.output with
    | some n => some n
    | none => h1
  else h1

/-- Amended claim: scripts in order, stopping at the first script that
leaves a non-empty name. -/
def amendedHostname (e : HostEntry) : Option String :=
  let h0 := initialHostname e
  if pyTruthy h0 then h0
  else
    match e.hostscript with
    | some scripts =>
      scripts.foldl (fun h s => if pyTruthy h then h else scriptStepA h s) h0
    | none => h0

/-! ## Concrete instances used by witnesses and counterexamples -/

def scanPending : ScanRec :=
  { status := "pending", progress := 0, error_message := none, started_at := none,
    completed_at := none }

def dbInit : DbState :=
  { scan := scanPending, logs := [], committedResults := [], pendingResults := [],
    pendingLogs := [] }

def hostA : HostEntry :=
  { host := "192.168.1.10"
    hostname := "alpha"
    state := "up"
    hostnames := none
    addresses := some { mac := some "AA:BB:CC:DD:EE:FF" }
    vendor := some [("AA:BB:CC:DD:EE:FF", "AcmeCorp")]
    protocols := [("tcp", [(22, ⟨some "open", some "ssh", some "8.0", some "OpenSSH", some ""⟩)])]
    hostscript := none
    osmatch := none
    raw := none }

def hostB : HostEntry :=
  { host := "192.168.1.11"
    hostname := ""
    state := "down"
    hostnames := none
    addresses := none
    vendor := none
    protocols := []
    hostscript := none
    osmatch := none
    raw := none }

def exC1 : HostEntry :=
  { host := "192.168.1.12"
    hostname := ""
    state := "up"
    hostnames := none
    addresses := none
    vendor := none
    protocols := []
    hostscript := some
      [ ⟨"smb-os-discovery", "OS: Windows\nDomain:a Computer name: REAL\nEnd"⟩,
        ⟨"nbstat", "NBHOST <00> UNIQUE Registered"⟩ ]
    osmatch := none
    raw := none }

def envOk : Env :=
  { target := "192.168.1.0/24", hosts := [hostA], failAt := none, t1 := 10, t2 := 20 }

def envFailScan : Env :=
  { target := "192.168.1.0/24", hosts := [hostA],
    failAt := some (FailPoint.nmScan, "nmap program error"), t1 := 10, t2 := 20 }

def envFailC4 : Env :=
  { target := "192.168.1.0/24", hosts := [hostA, hostB],
    failAt := some (FailPoint.procHost 1, "boom"), t1 := 10, t2 := 20 }

def envFailC5 : Env :=
  { target := "192.168.1.0/24", hosts := [hostA],
    failAt := some (FailPoint.updRunning, "db unavailable"), t1 := 10, t2 := 20 }

/-- The `ScanResultResponse` pydantic schema (scans.py lines 50-65): it
declares `mac_address` and `mac_vendor` fields, though the persisted
`scan_results` table has no such columns. -/
structure ScanResultResponse where
  id : String
  scan_id : String
  host : String
  hostname : Option String
  state : Option String
  ports : Option (List PortData)
  os_detection : Option OsDetection
  services : Option (List String)
  mac_address : Option String
  mac_vendor : Option String
deriving Repr, DecidableEq

/-- A pair of in-memory host records that agree except in the MAC fields. -/
def hdM1 : HostData :=
  { host := "192.168.1.20", hostname := none, state := "up", ports := [],
    os_detection := none, services := [], mac_address := some "AA:AA:AA:AA:AA:AA",
    mac_vendor := some "VendorOne" }

def hdM2 : HostData :=
  { hdM1 with mac_address := none, mac_vendor := none }

def appDbEx : AppDb :=
  { scans := [("s1", scanPending)]
    results := []
    logRows := [⟨"s1", "info", "Starting scan on target: 10.0.0.1"⟩] }

/-! ## Helper lemmas -/

theorem nbstatFromLines_cons (line : String) (rest : List String) :
    nbstatFromLines (line :: rest) =
      match nbstatLine line with
      | some n => some n
      | none => nbstatFromLines rest := by
  simp only [nbstatFromLines, nbstatLine]
  split
  · split
    · split <;> rfl
    · rfl
  · rfl

theorem smbFromLines_cons (line : String) (rest : List String) :
    smbFromLines (line :: rest) =
      match smbLineA line with
      | some n => some n
      | none => smbFromLines rest := by
  simp only [smbFromLines, smbLineA]
  split
  · split <;> rfl
  · split
    · split <;> rfl
    · rfl

theorem nbstatFromLines_eq (lines : List String) :
    nbstatFromLines lines = lines.findSome? nbstatLine := by
  induction lines with
  | nil => rfl
  | cons line rest ih =>
    rw [nbstatFromLines_cons, List.findSome?_cons, ih]
    cases nbstatLine line <;> rfl

theorem smbFromLines_eq (lines : List String) :
    smbFromLines lines = lines.findSome? smbLineA := by
  induction lines with
  | nil => rfl
  | cons line rest ih =>
    rw [smbFromLines_cons, List.findSome?_cons, ih]
    cases smbLineA line <;> rfl

theorem scriptStep_eq (h : Option String) (s : ScriptEntry) :
    scriptStep h s = scriptStepA h s := by
  simp only [scriptStep, scriptStepA, nbstatExtract, smbExtract,
    ← nbstatFromLines_eq, ← smbFromLines_eq]

theorem foldl_scriptStepA_truthy (l : List ScriptEntry) (h : Option String)
    (ht : pyTruthy h = true) :
    l.foldl (fun h s => if pyTruthy h then h else scriptStepA h s) h = h := by
  induction l with
  | nil => rfl
  | cons s rest ih => simp [List.foldl_cons, ht, ih]

theorem scriptPhase_cons (h : Option String) (s : ScriptEntry) (rest : List ScriptEntry) :
    scriptPhase h (s :: rest) =
      if pyTruthy (scriptStep h s) then scriptStep h s
      else scriptPhase (scriptStep h s) rest := rfl

theorem scriptPhase_eq (l : List ScriptEntry) (h : Option String)
    (ht : pyTruthy h = false) :
    scriptPhase h l = l.foldl (fun h s => if pyTruthy h then h else scriptStepA h s) h := by
  induction l generalizing h with
  | nil => rfl
  | cons s rest ih =>
    have hf : ¬ (pyTruthy h = true) := by simp [ht]
    rw [scriptPhase_cons, List.foldl_cons, if_neg hf, scriptStep_eq]
    by_cases h2 : pyTruthy (scriptStepA h s) = true
    · rw [if_pos h2, foldl_scriptStepA_truthy rest _ h2]
    · have h3 : pyTruthy (scriptStepA h s) = false := by
        revert h2; cases pyTruthy (scriptStepA h s) <;> simp
      rw [if_neg h2, ih _ h3]

/-! ## Claim theorems -/

/-- C1, counterexample: the claim's strict nbstat-before-smb fallback (and
its text-after-phrase reading of the smb extraction) disagrees with the
code.  With an smb-os-discovery script listed before an nbstat script, the
code takes the text after the first colon of the smb line
("a Computer name: REAL") while the claim prescribes the nbstat token
("NBHOST"). -/
theorem C1_hostname_fallback_counterexample :
    (process_host exC1).hostname = some "a Computer name: REAL" ∧
    specHostnameC1 exC1 = some "NBHOST" ∧
    (process_host exC1).hostname ≠ specHostnameC1 exC1 := by decide

/-- C1, amended: the normalizer sets a host's hostname to the
scanner-reported hostname if non-empty; otherwise the first entry with a
non-empty name in the host's hostnames list; otherwise the host scripts
are scanned in order, each first trying the nbstat extraction (first line
containing `<00>` and `Workstation` or `UNIQUE` whose first token does not
start with `<`) and then, while the current name is still unset or empty,
the smb-os-discovery extraction (the stripped text after the first colon
of the first line containing `Computer name:` or `NetBIOS computer
name:`), stopping at the first script that leaves a non-empty name; an smb
extraction may assign the empty string, which does not stop the scan but
is persisted if nothing overrides it; if no stage assigns a value the
persisted hostname is None. -/
theorem C1_hostname_fallback_amended (e : HostEntry) :
    (process_host e).hostname = amendedHostname e := by
  have hph : (process_host e).hostname = computeHostname e := rfl
  rw [hph]
  unfold computeHostname amendedHostname
  by_cases h0 : pyTruthy (initialHostname e) = true
  · simp [h0]
  · have h0f : pyTruthy (initialHostname e) = false := by
      revert h0; cases pyTruthy (initialHostname e) <;> simp
    cases e.hostscript with
    | none => simp [h0f]
    | some scripts => simp [h0f, scriptPhase_eq scripts _ h0f]

theorem foldl_ports_inner (proto : String) (ports : List (Nat × PortInfo))
    (a : List PortData × List String) :
    ports.foldl
      (fun a p => (a.1 ++ [mkPortData proto p.1 p.2], a.2 ++ [serviceEntry proto p.1 p.2])) a =
      (a.1 ++ ports.map (fun p => mkPortData proto p.1 p.2),
        a.2 ++ ports.map (fun p => serviceEntry proto p.1 p.2)) := by
  induction ports generalizing a with
  | nil => simp
  | cons p rest ih => simp [List.foldl_cons, ih]

theorem process_ports_eq (protos : List (String × List (Nat × PortInfo))) :
    process_ports protos =
      (protos.flatMap (fun pr => pr.2.map fun p => mkPortData pr.1 p.1 p.2),
        protos.flatMap (fun pr => pr.2.map fun p => serviceEntry pr.1 p.1 p.2)) := by
  have gen : ∀ a : List PortData × List String,
      protos.foldl
        (fun acc pr =>
          pr.2.foldl
            (fun a p => (a.1 ++ [mkPortData pr.1 p.1 p.2], a.2 ++ [serviceEntry pr.1 p.1 p.2]))
            acc) a =
        (a.1 ++ protos.flatMap (fun pr => pr.2.map fun p => mkPortData pr.1 p.1 p.2),
          a.2 ++ protos.flatMap (fun pr => pr.2.map fun p => serviceEntry pr.1 p.1 p.2)) := by
    induction protos with
    | nil => intro a; simp
    | cons pr rest ih =>
      intro a
      rw [List.foldl_cons, foldl_ports_inner, ih]
      simp [List.append_assoc]
  simpa [process_ports] using gen ([], [])

/-- C6: each reported port of each protocol yields exactly one normalized
port record, with the field defaults of scanner.py lines 136-144, and
exactly one `"<port>/<proto> - <name>"` services entry. -/
theorem C6_port_records (e : HostEntry) :
    (process_host e).ports =
      e.protocols.flatMap (fun pr => pr.2.map fun p => mkPortData pr.1 p.1 p.2) ∧
    (process_host e).services =
      e.protocols.flatMap (fun pr => pr.2.map fun p => serviceEntry pr.1 p.1 p.2) ∧
    (process_host e).ports.length = (process_host e).services.length ∧
    (∀ proto port pi, mkPortData proto port pi =
      { port := port, protocol := proto, state := pi.state.getD "unknown",
        service := pi.name.getD "unknown", version := pi.version.getD "",
        product := pi.product.getD "", extrainfo := pi.extrainfo.getD "" }) ∧
    (∀ proto port pi, serviceEntry proto port pi =
      toString port ++ "/" ++ proto ++ " - " ++ pi.name.getD "unknown") := by
  have h1 : (process_host e).ports = (process_ports e.protocols).1 := rfl
  have h2 : (process_host e).services = (process_ports e.protocols).2 := rfl
  refine ⟨?_, ?_, ?_, fun _ _ _ => rfl, fun _ _ _ => rfl⟩
  · rw [h1, process_ports_eq]
  · rw [h2, process_ports_eq]
  · rw [h1, h2, process_ports_eq]
    simp [List.length_flatMap, Function.comp_def]

theorem foldl_count_add (p : ScanResultRow → Bool) (l : List ScanResultRow) (n : Nat) :
    (l.map fun r => if p r then 1 else 0).foldl (· + ·) n = n + (l.filter p).length := by
  induction l generalizing n with
  | nil => simp
  | cons r rest ih =>
    by_cases h : p r = true
    · simp [h, ih, Nat.add_assoc, Nat.add_comm 1]
    · simp [h, ih]

theorem foldl_openports (l : List ScanResultRow) (n : Nat) :
    (((l.filter fun r =>
        match r.ports with
        | some ps => ps ≠ []
        | none => false).map fun r => (r.ports.getD []).length).foldl (· + ·) n) =
      n + (l.map fun r =>
        match r.ports with
        | some ps => ps.length
        | none => 0).sum := by
  induction l generalizing n with
  | nil => simp
  | cons r rest ih =>
    match hp : r.ports with
    | none =>
      simp [hp] at ih ⊢
      rw [ih]
    | some [] =>
      simp [hp] at ih ⊢
      rw [ih]
    | some (p :: ps) =>
      simp [hp] at ih ⊢
      rw [ih]
      omega

/-- C7: the JSON report summary counts all stored rows, the rows with state
"up" and "down", and the total recorded port entries across all rows
(reports.py lines 56-61). -/
theorem C7_json_summary (results : List ScanResultRow) :
    (jsonReportSummary results).total_hosts = results.length ∧
    (jsonReportSummary results).hosts_up =
      (results.filter fun r => r.state = some "up").length ∧
    (jsonReportSummary results).hosts_down =
      (results.filter fun r => r.state = some "down").length ∧
    (jsonReportSummary results).total_open_ports =
      (results.map fun r =>
        match r.ports with
        | some ps => ps.length
        | none => 0).sum := by
  refine ⟨rfl, ?_, ?_, ?_⟩
  · show (results.map fun r => if r.state = some "up" then 1 else 0).foldl (· + ·) 0 = _
    simpa using foldl_count_add (fun r => r.state = some "up") results 0
  · show (results.map fun r => if r.state = some "down" then 1 else 0).foldl (· + ·) 0 = _
    simpa using foldl_count_add (fun r => r.state = some "down") results 0
  · simpa [jsonReportSummary] using foldl_openports results 0

/-- C8: the normalizer computes `mac_address` (from the host's addresses)
and `mac_vendor` (the first value of the vendor dictionary, read only when
the addresses key is present) into the in-memory host record, but the
persisted `ScanResult` row is built only from the non-MAC fields (the
table has no MAC columns), even though the `ScanResultResponse` schema
declares both fields. -/
theorem C8_mac_fields_not_persisted (e : HostEntry) :
    (process_host e).mac_address = e.addresses.bind Addresses.mac ∧
    (process_host e).mac_vendor =
      (if e.addresses.isSome then ((e.vendor.getD []).map Prod.snd).head? else none) ∧
    (∀ hd1 hd2 : HostData, ∀ sid raw,
      hd1.host = hd2.host → hd1.hostname = hd2.hostname → hd1.state = hd2.state →
      hd1.ports = hd2.ports → hd1.os_detection = hd2.os_detection →
      hd1.services = hd2.services →
      mkRowFromData sid hd1 raw = mkRowFromData sid hd2 raw) ∧
    (∀ a b : Option String, ∃ resp : ScanResultResponse,
      resp.mac_address = a ∧ resp.mac_vendor = b) := by
  refine ⟨?_, ?_, ?_, ?_⟩
  · show (macInfo e).1 = e.addresses.bind Addresses.mac
    unfold macInfo
    cases e.addresses with
    | none => rfl
    | some a => simp
  · show (macInfo e).2 = _
    unfold macInfo
    cases e.addresses with
    | none => rfl
    | some a =>
      cases e.vendor with
      | none => simp
      | some v => cases v <;> simp
  · intro hd1 hd2 sid raw h1 h2 h3 h4 h5 h6
    simp [mkRowFromData, h1, h2, h3, h4, h5, h6]
  · intro a b
    exact ⟨⟨"", "", "", none, none, none, none, none, a, b⟩, rfl, rfl⟩

theorem C8_mac_fields_not_persisted_witness :
    hdM1.mac_address ≠ hdM2.mac_address ∧
    mkRowFromData "s1" hdM1 "" = mkRowFromData "s1" hdM2 "" :=
  ⟨by decide,
    (C8_mac_fields_not_persisted hostA).2.2.1 hdM1 hdM2 "s1" "" rfl rfl rfl rfl rfl rfl⟩

theorem pyTruthy_eq_false_iff (o : Option String) :
    pyTruthy o = false ↔ (o = none ∨ o = some "") := by
  cases o <;> simp [pyTruthy]

theorem lookupTemplate_eq_none_iff (k : String) :
    lookupTemplate k = none ↔ k ∉ get_scan_templates.map Prod.fst := by
  rw [lookupTemplate, Option.map_eq_none', List.find?_eq_none]
  constructor
  · intro h hmem
    obtain ⟨p, hp, hfst⟩ := List.mem_map.mp hmem
    exact absurd (by simpa using hfst) (by simpa using h p hp)
  · intro h p hp
    simp only [decide_eq_true_eq]
    intro hk
    exact h (List.mem_map.mpr ⟨p, hp, hk⟩)

/-- C10: `create_scan` answers 400 "Unknown scan type" exactly when the
request has no (or an empty) custom `nmap_arguments` and its `scan_type`
is not a built-in template key; any non-empty custom `nmap_arguments` is
accepted without validating `scan_type`, which is stored as given
(scans.py lines 101-118). -/
theorem C10_create_scan_validation (req : ScanCreate) :
    (create_scan req = Except.error (400, "Unknown scan type: " ++ req.scan_type) ↔
      ((req.nmap_arguments = none ∨ req.nmap_arguments = some "") ∧
        req.scan_type ∉ get_scan_templates.map Prod.fst)) ∧
    (∀ s, req.nmap_arguments = some s → s ≠ "" →
      create_scan req = Except.ok (⟨req.name, req.target, req.scan_type, "pending"⟩, s)) := by
  constructor
  · unfold create_scan
    by_cases ht : pyTruthy req.nmap_arguments = true
    · have hd : ¬ (req.nmap_arguments = none ∨ req.nmap_arguments = some "") := by
        rw [← pyTruthy_eq_false_iff]
        simp [ht]
      simp [ht, hd]
    · have htf : pyTruthy req.nmap_arguments = false := by
        revert ht; cases pyTruthy req.nmap_arguments <;> simp
      have hd : req.nmap_arguments = none ∨ req.nmap_arguments = some "" :=
        (pyTruthy_eq_false_iff _).mp htf
      cases hl : lookupTemplate req.scan_type with
      | some t =>
        obtain ⟨p, hp, hpt⟩ := Option.map_eq_some'.mp hl
        have hpred : p.1 = req.scan_type := by
          have h2 := List.find?_some hp
          simpa using h2
        have hmem : req.scan_type ∈ get_scan_templates.map Prod.fst :=
          List.mem_map.mpr ⟨p, List.mem_of_find?_eq_some hp, hpred⟩
        simp [htf, hl, hd, hmem]
      | none =>
        have hmem : req.scan_type ∉ get_scan_templates.map Prod.fst :=
          (lookupTemplate_eq_none_iff _).mp hl
        simp [htf, hl, hd, hmem]
  · intro s hs hne
    have ht : pyTruthy req.nmap_arguments = true := by simp [hs, pyTruthy, hne]
    simp [create_scan, ht, hs]
    intro hfalse
    obtain h | h := (pyTruthy_eq_false_iff _).mp hfalse
    · exact absurd h (by simp)
    · exact absurd (by simpa using h) hne

theorem C10_create_scan_validation_witness :
    create_scan ⟨"n", "10.0.0.1", "bogus", some "-sV -T4"⟩ =
      Except.ok (⟨"n", "10.0.0.1", "bogus", "pending"⟩, "-sV -T4") :=
  (C10_create_scan_validation ⟨"n", "10.0.0.1", "bogus", some "-sV -T4"⟩).2
    "-sV -T4" rfl (by decide)

theorem foldl_append_blocks (l : List ScanResultRow) (f : ScanResultRow → List String)
    (init : List String) :
    l.foldl (fun acc r => acc ++ f r) init = init ++ l.flatMap f := by
  induction l generalizing init with
  | nil => simp
  | cons r rest ih => simp [List.foldl_cons, ih]

theorem foldl_push_map (ps : List PortData) (g : PortData → String) (a : List String) :
    ps.foldl (fun a p => a ++ [g p]) a = a ++ ps.map g := by
  induction ps generalizing a with
  | nil => simp
  | cons p rest ih => simp [List.foldl_cons, ih]

/-- C9: the CSV report fails with 404 exactly when no result rows are
stored; otherwise it is the header line followed, per stored row, by one
line per recorded port, or by a single line whose port, protocol, service,
version and product fields are all empty when the row's ports value is
null or the empty list (reports.py lines 230-253). -/
theorem C9_csv_report (results : List ScanResultRow) :
    (get_csv_report results = Except.error 404 ↔ results = []) ∧
    (results ≠ [] →
      get_csv_report results = Except.ok (csvHeader :: results.flatMap csvHostLines)) ∧
    (∀ r : ScanResultRow, r.ports = none ∨ r.ports = some [] →
      csvHostLines r = [csvEmptyLine r]) ∧
    (∀ r ps, r.ports = some ps → ps ≠ [] → csvHostLines r = ps.map (csvPortLine r)) ∧
    (∀ r : ScanResultRow, ∃ pre, csvEmptyLine r = pre ++ ",,,,,") := by
  refine ⟨?_, ?_, ?_, ?_, fun r => ⟨_, rfl⟩⟩
  · unfold get_csv_report
    by_cases h : results = [] <;> simp [h]
  · intro h
    simp only [get_csv_report, h, if_neg h]
    rw [foldl_append_blocks]
    rfl
  · intro r h
    cases h with
    | inl h => simp [csvHostLines, h]
    | inr h => simp [csvHostLines, h]
  · intro r ps hp hne
    simp [csvHostLines, hp, hne, foldl_push_map]

theorem C9_csv_report_witness :
    ([mkRow "s1" hostA, mkRow "s1" hostB] : List ScanResultRow) ≠ [] ∧
    get_csv_report [mkRow "s1" hostA, mkRow "s1" hostB] =
      Except.ok [csvHeader,
        "192.168.1.10,alpha,up,22,tcp,ssh,8.0,OpenSSH",
        "192.168.1.11,N/A,down,,,,,"] := by
  have h := (C9_csv_report [mkRow "s1" hostA, mkRow "s1" hostB]).2.1 (by decide)
  refine ⟨by decide, ?_⟩
  rw [h]
  decide

theorem lookupActive_popActive (m : ActiveMap) (k : String) :
    lookupActive (popActive m k) k = none := by
  induction m with
  | nil => rfl
  | cons p rest ih =>
    obtain ⟨k0, v0⟩ := p
    by_cases h : k0 = k
    · simpa [popActive, List.filter_cons, h] using ih
    · simpa [popActive, List.filter_cons, h, lookupActive] using ih

theorem lookupActive_setActive (m : ActiveMap) (k : String) (v : Bool) :
    lookupActive (setActive m k v) k = some v := by
  induction m with
  | nil => simp [setActive, lookupActive]
  | cons p rest ih =>
    obtain ⟨k0, v0⟩ := p
    by_cases h : k0 = k
    · simp [setActive, h, lookupActive]
    · simp [setActive, h, lookupActive, ih]

theorem popActive_setActive (m : ActiveMap) (k : String) (v : Bool) :
    popActive (setActive m k v) k = popActive m k := by
  induction m with
  | nil => simp [setActive, popActive, List.filter_cons]
  | cons p rest ih =>
    obtain ⟨k0, v0⟩ := p
    by_cases h : k0 = k
    · simp [setActive, popActive, List.filter_cons, h]
    · simp [setActive, popActive, List.filter_cons, h] at ih ⊢
      exact ih

theorem process_scan_results_scan (scanId : String) (db : DbState)
    (hosts : List HostEntry) (failAt : Option (Nat × String)) (acc : List HostData) :
    (process_scan_results scanId db hosts failAt acc).1.scan = db.scan := by
  induction hosts generalizing failAt db acc with
  | nil => rfl
  | cons h rest ih =>
    rcases failAt with _ | ⟨i, m⟩
    · exact ih (dbAddResult db (mkRow scanId h)) none (acc ++ [process_host h])
    · rcases i with _ | i
      · rfl
      · exact ih (dbAddResult db (mkRow scanId h)) (some (i, m)) (acc ++ [process_host h])

theorem process_scan_results_pendingLogs (scanId : String) (db : DbState)
    (hosts : List HostEntry) (failAt : Option (Nat × String)) (acc : List HostData)
    (hp : db.pendingLogs = []) :
    (process_scan_results scanId db hosts failAt acc).1.pendingLogs = [] := by
  induction hosts generalizing failAt db acc with
  | nil => rfl
  | cons h rest ih =>
    rcases failAt with _ | ⟨i, m⟩
    · exact ih (dbAddResult db (mkRow scanId h)) none (acc ++ [process_host h]) hp
    · rcases i with _ | i
      · exact hp
      · exact ih (dbAddResult db (mkRow scanId h)) (some (i, m)) (acc ++ [process_host h]) hp

theorem logs_update_scan_status (db : DbState) (s : String) (p : Option Nat)
    (e : Option String) (st c : Option Nat) :
    ∃ t, (update_scan_status db s p e st c).logs = db.logs ++ t :=
  ⟨db.pendingLogs, rfl⟩

theorem logs_add_log (db : DbState) (scanId level msg : String) :
    ∃ t, (add_log db scanId level msg).logs = db.logs ++ t :=
  ⟨db.pendingLogs ++ [⟨scanId, level, msg⟩], by simp [add_log, dbAddLog, dbCommit]⟩

theorem logs_trans {db1 db2 db3 : DbState} (h1 : ∃ t, db2.logs = db1.logs ++ t)
    (h2 : ∃ t, db3.logs = db2.logs ++ t) : ∃ t, db3.logs = db1.logs ++ t := by
  obtain ⟨a, ha⟩ := h1
  obtain ⟨b, hb⟩ := h2
  exact ⟨a ++ b, by rw [hb, ha, List.append_assoc]⟩

theorem process_scan_results_logs (scanId : String) (db : DbState)
    (hosts : List HostEntry) (failAt : Option (Nat × String)) (acc : List HostData) :
    ∃ t, (process_scan_results scanId db hosts failAt acc).1.logs = db.logs ++ t := by
  induction hosts generalizing failAt db acc with
  | nil => exact ⟨db.pendingLogs, rfl⟩
  | cons h rest ih =>
    rcases failAt with _ | ⟨i, m⟩
    · exact ih (dbAddResult db (mkRow scanId h)) none (acc ++ [process_host h])
    · rcases i with _ | i
      · exact ⟨[], by simp [process_scan_results]⟩
      · exact ih (dbAddResult db (mkRow scanId h)) (some (i, m)) (acc ++ [process_host h])

theorem process_result_pendingLogs (env : Env) (scanId : String) (db0 db3 : DbState)
    (x : Except String (List HostData))
    (heq : process_scan_results scanId
      (add_log (update_scan_status db0 "running" none none (some env.t1) none) scanId
        "info" ("Starting scan on target: " ++ env.target))
      env.hosts (procFail env) [] = (db3, x)) :
    db3.pendingLogs = [] := by
  have h3 := process_scan_results_pendingLogs scanId
    (add_log (update_scan_status db0 "running" none none (some env.t1) none) scanId
      "info" ("Starting scan on target: " ++ env.target))
    env.hosts (procFail env) [] rfl
  rw [heq] at h3
  exact h3

theorem process_result_logs (env : Env) (scanId : String) (db0 db3 : DbState)
    (x : Except String (List HostData))
    (heq : process_scan_results scanId
      (add_log (update_scan_status db0 "running" none none (some env.t1) none) scanId
        "info" ("Starting scan on target: " ++ env.target))
      env.hosts (procFail env) [] = (db3, x)) :
    ∃ t, db3.logs = db0.logs ++ t := by
  have h3 := process_scan_results_logs scanId
    (add_log (update_scan_status db0 "running" none none (some env.t1) none) scanId
      "info" ("Starting scan on target: " ++ env.target))
    env.hosts (procFail env) []
  rw [heq] at h3
  exact logs_trans (logs_trans
    (logs_update_scan_status db0 "running" none none (some env.t1) none)
    (logs_add_log _ scanId "info" _)) h3

theorem tryBody_pendingLogs (env : Env) (scanId : String) (db0 : DbState)
    (h : db0.pendingLogs = []) : (tryBody env scanId db0).1.pendingLogs = [] := by
  unfold tryBody
  dsimp only
  repeat' split
  all_goals first
    | exact h
    | rfl
    | (exact process_result_pendingLogs env scanId db0 _ _ (by assumption))

theorem tryBody_logs (env : Env) (scanId : String) (db0 : DbState) :
    ∃ t, (tryBody env scanId db0).1.logs = db0.logs ++ t := by
  have hstep12 : ∃ t,
      (add_log (update_scan_status db0 "running" none none (some env.t1) none) scanId
        "info" ("Starting scan on target: " ++ env.target)).logs = db0.logs ++ t :=
    logs_trans (logs_update_scan_status db0 "running" none none (some env.t1) none)
      (logs_add_log _ scanId "info" _)
  unfold tryBody
  dsimp only
  repeat' split
  all_goals first
    | exact ⟨[], (List.append_nil db0.logs).symm⟩
    | exact ⟨db0.pendingLogs, rfl⟩
    | exact hstep12
    | (exact process_result_logs env scanId db0 _ _ (by assumption))
    | (exact logs_trans (process_result_logs env scanId db0 _ _ (by assumption))
        (logs_update_scan_status _ "completed" (some 100) none none (some env.t2)))
    | (exact logs_trans
        (logs_trans (process_result_logs env scanId db0 _ _ (by assumption))
          (logs_update_scan_status _ "completed" (some 100) none none (some env.t2)))
        (logs_add_log _ scanId "success" _))

theorem execute_scan_logs (env : Env) (scanId : String) (db0 : DbState)
    (active0 : ActiveMap) (intf : ActiveMap → ActiveMap) :
    ∃ t, (execute_scan env scanId db0 active0 intf).db.logs = db0.logs ++ t := by
  unfold execute_scan
  cases htb : tryBody env scanId db0 with
  | mk db rest =>
    cases rest with
    | mk tr exc =>
      have hpre : ∃ t, db.logs = db0.logs ++ t := by
        have h := tryBody_logs env scanId db0
        rw [htb] at h
        exact h
      cases exc with
      | ok results => exact hpre
      | error m =>
        exact logs_trans hpre (logs_trans
          (logs_update_scan_status db "failed" none (some ("Scan failed: " ++ m)) none
            (some env.t2))
          (logs_add_log _ scanId "error" _))

/-- C2: whenever any step inside the `try` block of `execute_scan` raises,
the scan row is set to status "failed" with error message
`"Scan failed: " ++ str(e)` and a completed_at timestamp, exactly one
error-level log entry is appended, the same exception is re-raised, and
the scan id is removed from the active-scan map
(scanner.py lines 75-86). -/
theorem C2_failure_handling (env : Env) (scanId : String) (db0 : DbState)
    (active0 : ActiveMap) (dbT : DbState) (tr : List Ev) (m : String)
    (hpl : db0.pendingLogs = [])
    (htry : tryBody env scanId db0 = (dbT, tr, Except.error m)) :
    (execute_scan env scanId db0 active0 id).db.scan.status = "failed" ∧
    (execute_scan env scanId db0 active0 id).db.scan.error_message =
      some ("Scan failed: " ++ m) ∧
    (execute_scan env scanId db0 active0 id).db.scan.completed_at = some env.t2 ∧
    (execute_scan env scanId db0 active0 id).db.logs =
      dbT.logs ++ [⟨scanId, "error", "Scan failed: " ++ m⟩] ∧
    (execute_scan env scanId db0 active0 id).outcome = Except.error m ∧
    lookupActive (execute_scan env scanId db0 active0 id).active scanId = none := by
  have hT : dbT.pendingLogs = [] := by
    have h := tryBody_pendingLogs env scanId db0 hpl
    rw [htry] at h
    exact h
  unfold execute_scan
  rw [htry]
  refine ⟨rfl, rfl, rfl, ?_, rfl, lookupActive_popActive _ _⟩
  simp [add_log, update_scan_status, dbCommit, dbAddLog, hT]

theorem C2_failure_handling_witness :
    dbInit.pendingLogs = [] ∧
    (execute_scan envFailScan "s1" dbInit [] id).db.scan.status = "failed" ∧
    (execute_scan envFailScan "s1" dbInit [] id).outcome =
      Except.error "nmap program error" ∧
    lookupActive (execute_scan envFailScan "s1" dbInit [] id).active "s1" = none := by
  have h := C2_failure_handling envFailScan "s1" dbInit []
    (tryBody envFailScan "s1" dbInit).1 (tryBody envFailScan "s1" dbInit).2.1
    "nmap program error" rfl (by decide)
  exact ⟨rfl, h.1, h.2.2.2.2.1, h.2.2.2.2.2⟩

/-- C3: the boolean cancel flag is never read by `execute_scan`: a run in
which `cancel_scan` was invoked while the scan executes produces exactly
the same session state, outcome, event trace and final active map as a run
without the cancellation; `cancel_scan` only flips the flag
(scanner.py lines 41-86, 262-267). -/
theorem C3_cancel_flag_never_read (env : Env) (scanId : String) (db0 : DbState)
    (active0 : ActiveMap) :
    execute_scan env scanId db0 active0 (fun m => (cancel_scan m scanId).1) =
      execute_scan env scanId db0 active0 id := by
  have hact : (cancel_scan (setActive active0 scanId true) scanId).1 =
      setActive (setActive active0 scanId true) scanId false := by
    simp [cancel_scan, lookupActive_setActive]
  have hpop : popActive ((cancel_scan (setActive active0 scanId true) scanId).1) scanId =
      popActive (setActive active0 scanId true) scanId := by
    rw [hact, popActive_setActive]
  unfold execute_scan
  cases htb : tryBody env scanId db0 with
  | mk db rest =>
    cases rest with
    | mk tr exc =>
      cases exc with
      | ok results => simp [hpop]
      | error m => simp [hpop]

theorem process_none_eq (scanId : String) (db : DbState) (hosts : List HostEntry)
    (acc : List HostData) :
    process_scan_results scanId db hosts none acc =
      (dbCommit { db with pendingResults := db.pendingResults ++ hosts.map (mkRow scanId) },
        Except.ok (acc ++ hosts.map process_host)) := by
  induction hosts generalizing db acc with
  | nil => simp [process_scan_results]
  | cons h rest ih =>
    show process_scan_results scanId (dbAddResult db (mkRow scanId h)) rest none
      (acc ++ [process_host h]) = _
    rw [ih]
    simp [dbAddResult, List.append_assoc]

theorem process_fail_committed (scanId : String) (db : DbState) (hosts : List HostEntry)
    (i : Nat) (m : String) (acc : List HostData) (hi : i < hosts.length) :
    (process_scan_results scanId db hosts (some (i, m)) acc).1.committedResults =
      db.committedResults ∧
    (process_scan_results scanId db hosts (some (i, m)) acc).2 = Except.error m := by
  induction hosts generalizing i db acc with
  | nil => simp at hi
  | cons h rest ih =>
    rcases i with _ | i
    · exact ⟨rfl, rfl⟩
    · have hi2 : i < rest.length := by simpa using hi
      exact ih (dbAddResult db (mkRow scanId h)) i (acc ++ [process_host h]) hi2

/-- C4, counterexample: with two hosts and an exception while processing
the second, the first host's row (already `db.add`ed) is flushed to the
database by the failure path's status-update commit, so a ScanResult row
from the failed run IS committed; and deleting a scan cascades the
deletion of its ScanLog rows. -/
theorem C4_persistence_counterexample :
    (execute_scan envFailC4 "scan1" dbInit [] id).outcome = Except.error "boom" ∧
    (execute_scan envFailC4 "scan1" dbInit [] id).db.committedResults =
      [mkRow "scan1" hostA] ∧
    appDbEx.logRows ≠ [] ∧
    (delete_scan "s1" appDbEx).1.logRows = [] := by decide

/-- C4, amended: host rows are added to the session during the host loop
and committed by the single commit after the loop (so a fully successful
run persists exactly the normalized rows); ScanLog rows are never updated,
and execute_scan only ever appends to the log table.  However, when
processing raises partway through, the rows already added are not yet
committed at that moment but are flushed by the failure path's
status-update commit; and ScanLog rows are deleted when their parent scan
is deleted (the cascade of delete_scan). -/
theorem C4_persistence_amended :
    (∀ scanId (db : DbState) hosts acc,
      process_scan_results scanId db hosts none acc =
        (dbCommit { db with pendingResults := db.pendingResults ++ hosts.map (mkRow scanId) },
          Except.ok (acc ++ hosts.map process_host))) ∧
    (∀ scanId (db : DbState) hosts i m acc, i < hosts.length →
      (process_scan_results scanId db hosts (some (i, m)) acc).1.committedResults =
        db.committedResults) ∧
    (∀ env scanId (db0 dbT : DbState) tr m (active0 : ActiveMap),
      tryBody env scanId db0 = (dbT, tr, Except.error m) →
      (execute_scan env scanId db0 active0 id).db.committedResults =
        dbT.committedResults ++ dbT.pendingResults) ∧
    (∀ env scanId (db0 : DbState) (active0 : ActiveMap) intf,
      ∃ t, (execute_scan env scanId db0 active0 intf).db.logs = db0.logs ++ t) ∧
    (∀ sid (db : AppDb), ((db.scans.find? fun p => p.1 = sid)).isSome →
      (delete_scan sid db).1.logRows = db.logRows.filter fun l => ¬ l.scan_id = sid) := by
  refine ⟨fun scanId db hosts acc => process_none_eq scanId db hosts acc,
    fun scanId db hosts i m acc hi => (process_fail_committed scanId db hosts i m acc hi).1,
    ?_, fun env scanId db0 active0 intf => execute_scan_logs env scanId db0 active0 intf, ?_⟩
  · intro env scanId db0 dbT tr m active0 htry
    unfold execute_scan
    rw [htry]
    simp [add_log, update_scan_status, dbCommit, dbAddLog]
  · intro sid db h
    simp [delete_scan, h]

theorem C4_persistence_amended_witness :
    (process_scan_results "s1" dbInit [hostA] none []).2 =
      Except.ok [process_host hostA] ∧
    (1 : Nat) < ([hostA, hostB] : List HostEntry).length ∧
    (process_scan_results "s1" dbInit [hostA, hostB] (some (1, "boom")) []).1.committedResults
      = [] ∧
    ((appDbEx.scans.find? fun p => p.1 = "s1")).isSome = true ∧
    (delete_scan "s1" appDbEx).1.logRows = [] := by
  refine ⟨?_, by decide, ?_, by decide, ?_⟩
  · rw [C4_persistence_amended.1 "s1" dbInit [hostA] []]
    rfl
  · rw [C4_persistence_amended.2.1 "s1" dbInit [hostA, hostB] 1 "boom" [] (by decide)]
    rfl
  · rw [C4_persistence_amended.2.2.2.2 "s1" appDbEx (by decide)]
    decide

theorem tryBody_trace_mem (env : Env) (scanId : String) (db0 : DbState) :
    (tryBody env scanId db0).2.1 ∈ ([
      [],
      [Ev.statusUpd "running"],
      [Ev.statusUpd "running", Ev.logAdd "info"],
      [Ev.statusUpd "running", Ev.logAdd "info", Ev.invoke],
      [Ev.statusUpd "running", Ev.logAdd "info", Ev.invoke, Ev.resultsCommit],
      [Ev.statusUpd "running", Ev.logAdd "info", Ev.invoke, Ev.resultsCommit,
        Ev.statusUpd "completed"],
      [Ev.statusUpd "running", Ev.logAdd "info", Ev.invoke, Ev.resultsCommit,
        Ev.statusUpd "completed", Ev.logAdd "success"]] : List (List Ev)) := by
  unfold tryBody
  dsimp only
  repeat' split
  all_goals simp

theorem tryBody_none (env : Env) (scanId : String) (db0 : DbState)
    (hnone : env.failAt = none) :
    tryBody env scanId db0 =
      (add_log (update_scan_status
          (dbCommit { (add_log (update_scan_status db0 "running" none none (some env.t1) none)
              scanId "info" ("Starting scan on target: " ++ env.target)) with
            pendingResults :=
              (add_log (update_scan_status db0 "running" none none (some env.t1) none)
                scanId "info" ("Starting scan on target: " ++ env.target)).pendingResults ++
              env.hosts.map (mkRow scanId) })
          "completed" (some 100) none none (some env.t2)) scanId "success"
        "Scan completed successfully",
        [Ev.statusUpd "running", Ev.logAdd "info", Ev.invoke, Ev.resultsCommit,
          Ev.statusUpd "completed", Ev.logAdd "success"],
        Except.ok ([] ++ env.hosts.map process_host)) := by
  have hpf : procFail env = none := by simp [procFail, hnone]
  unfold tryBody
  rw [show failMsg env FailPoint.updRunning = none by simp [failMsg, hnone],
    show failMsg env FailPoint.logStart = none by simp [failMsg, hnone],
    show failMsg env FailPoint.nmScan = none by simp [failMsg, hnone],
    show failMsg env FailPoint.updCompleted = none by simp [failMsg, hnone],
    show failMsg env FailPoint.logSuccess = none by simp [failMsg, hnone], hpf]
  dsimp only
  rw [process_none_eq]

/-- C5, counterexample: when the very first status update (to "running")
raises, the handler still sets status "failed": the trace contains a
"failed" update never preceded by a "running" update, refuting "the status
is never set to 'completed' or 'failed' without having first been set to
'running'". -/
theorem C5_lifecycle_counterexample :
    occursBefore (Ev.statusUpd "running") (Ev.statusUpd "failed")
      (execute_scan envFailC5 "s1" dbInit [] id).trace = false ∧
    (execute_scan envFailC5 "s1" dbInit [] id).db.scan.status = "failed" := by decide

/-- C5, amended: in every execution the "running" update precedes the
scanner invocation, "completed" is only ever set after the invocation and
after the results commit, and "completed" is never set without "running"
having been set first; in a fully successful execution the final scan row
has status "completed", progress 100, started_at t1 and completed_at t2.
(The original claim's clause for "failed" is dropped: "failed" can be set
without "running" when the initial status update itself raises.) -/
theorem C5_lifecycle_amended (env : Env) (scanId : String) (db0 : DbState)
    (active0 : ActiveMap) (intf : ActiveMap → ActiveMap) :
    occursBefore (Ev.statusUpd "running") Ev.invoke
      (execute_scan env scanId db0 active0 intf).trace = true ∧
    occursBefore Ev.invoke (Ev.statusUpd "completed")
      (execute_scan env scanId db0 active0 intf).trace = true ∧
    occursBefore Ev.resultsCommit (Ev.statusUpd "completed")
      (execute_scan env scanId db0 active0 intf).trace = true ∧
    occursBefore (Ev.statusUpd "running") (Ev.statusUpd "completed")
      (execute_scan env scanId db0 active0 intf).trace = true ∧
    (env.failAt = none →
      (execute_scan env scanId db0 active0 intf).db.scan.status = "completed" ∧
      (execute_scan env scanId db0 active0 intf).db.scan.progress = 100 ∧
      (execute_scan env scanId db0 active0 intf).db.scan.started_at = some env.t1 ∧
      (execute_scan env scanId db0 active0 intf).db.scan.completed_at = some env.t2) := by
  cases htb : tryBody env scanId db0 with
  | mk db rest =>
    obtain ⟨tr, exc⟩ := rest
    have hmem := tryBody_trace_mem env scanId db0
    rw [htb] at hmem
    simp only [List.mem_cons, List.not_mem_nil, or_false] at hmem
    unfold execute_scan
    rw [htb]
    cases exc with
    | ok results =>
      dsimp only
      refine ⟨?_, ?_, ?_, ?_, fun hnone => ?_⟩
      · rcases hmem with rfl | rfl | rfl | rfl | rfl | rfl | rfl <;> decide
      · rcases hmem with rfl | rfl | rfl | rfl | rfl | rfl | rfl <;> decide
      · rcases hmem with rfl | rfl | rfl | rfl | rfl | rfl | rfl <;> decide
      · rcases hmem with rfl | rfl | rfl | rfl | rfl | rfl | rfl <;> decide
      · rw [tryBody_none env scanId db0 hnone] at htb
        have hdb := congrArg Prod.fst htb
        dsimp only at hdb
        rw [← hdb]
        exact ⟨rfl, rfl, rfl, rfl⟩
    | error m =>
      dsimp only
      refine ⟨?_, ?_, ?_, ?_, fun hnone => ?_⟩
      · rcases hmem with rfl | rfl | rfl | rfl | rfl | rfl | rfl <;> decide
      · rcases hmem with rfl | rfl | rfl | rfl | rfl | rfl | rfl <;> decide
      · rcases hmem with rfl | rfl | rfl | rfl | rfl | rfl | rfl <;> decide
      · rcases hmem with rfl | rfl | rfl | rfl | rfl | rfl | rfl <;> decide
      · rw [tryBody_none env scanId db0 hnone] at htb
        exact absurd (congrArg (fun p => p.2.2) htb) (by simp)

theorem C5_lifecycle_amended_witness :
    envOk.failAt = none ∧
    (execute_scan envOk "s1" dbInit [] id).db.scan.status = "completed" ∧
    (execute_scan envOk "s1" dbInit [] id).db.scan.progress = 100 ∧
    (execute_scan envOk "s1" dbInit [] id).db.scan.started_at = some 10 ∧
    occursBefore (Ev.statusUpd "running") Ev.invoke
      (execute_scan envOk "s1" dbInit [] id).trace = true := by
  have h := C5_lifecycle_amended envOk "s1" dbInit [] id
  have h5 := h.2.2.2.2 rfl
  exact ⟨rfl, h5.1, h5.2.1, h5.2.2.1, h.1⟩

end NmapApp
